import Mathlib

/-!
Verification of the access-control Worker in `src/index.js`.

The file embeds the two functions of the source, `parseCookies` and
`handleRequest`, as Lean functions, and proves the behavioural claims of
the specification about them.

Embedding conventions (JavaScript semantics made explicit):

* `String.prototype.split` with a one-character separator is `jsSplit`;
  `Array.prototype.join` is `jsJoin`; `String.prototype.trim` is `jsTrim`
  (restricted to the ASCII whitespace characters, the only ones the
  claims exercise).  They operate on `List Char`, the character sequence
  of a Lean `String`.
* A header read (`request.headers.get(...)`) yields `Option String`:
  `none` is a missing header (JavaScript `null`).
* JavaScript truthiness tests on strings (`!cookieHeader`,
  `!cfAuthCookie`, `!clientIP`, `!identityIP`) are false exactly for the
  missing value and for the empty string, and the embedding tests both.
* `fetch` collaborators are parameters of `handleRequest`.  A call that
  rejects at the transport level is the value `none`.  The body of the
  identity response is `Option IdentityJson`: `none` is a body on which
  `identityResponse.json()` rejects (absent or unparseable JSON), `some`
  is a parsed object whose `ip` field is `Option String` (`none`: field
  absent / undefined).
* `handleRequest` returns an `Outcome` together with the list of
  outbound network calls it performed, in order.  `Outcome.responded r`
  is a concrete response; `Outcome.uncaughtRejection` is a promise
  rejection escaping `handleRequest`.  The latter arises only on the
  admit path: line 76 of the source is `return fetch(request);` with no
  `await`, and in a JavaScript async function a promise returned from
  inside a `try` block is adopted after the block has been exited, so
  its rejection is NOT routed through the `catch` - only
  `return await fetch(request)` would be.  The awaited identity `fetch`
  (line 51) and the awaited `identityResponse.json()` (line 63) do have
  their rejections caught, producing the 500 response of line 85.
-/

namespace CfAuthIp

/-- JavaScript `s.split(sep)` for a one-character separator `c`:
splits at every occurrence, keeping empty fragments, and yields `[[]]`
on the empty string.  The result is never the empty list. -/
def jsSplit (c : Char) : List Char → List (List Char)
  | [] => [[]]
  | a :: s =>
    let r := jsSplit c s
    if a = c then [] :: r else (a :: r.headI) :: r.tail

/-- JavaScript `parts.join(sep)` for a one-character separator. -/
def jsJoin (c : Char) : List (List Char) → List Char
  | [] => []
  | [x] => x
  | x :: y :: xs => x ++ c :: jsJoin c (y :: xs)

/-- The ASCII whitespace characters removed by `String.prototype.trim`
(the full JavaScript set also has Unicode space separators, which no
claim exercises). -/
def isJsWhitespace (c : Char) : Bool :=
  c = ' ' || c = '\t' || c = '\n' || c = '\r'

/-- JavaScript `s.trim()`: strip leading and trailing whitespace. -/
def jsTrim (s : List Char) : List Char :=
  ((s.dropWhile isJsWhitespace).reverse.dropWhile isJsWhitespace).reverse

/-- One entry of the cookie jar, exactly lines 98-100 of `src/index.js`:
`parts = cookie.trim().split('=')`, name `parts[0]`, value
`parts.slice(1).join('=')`. -/
def cookieEntry (cookie : List Char) : String × String :=
  let parts := jsSplit '=' (jsTrim cookie)
  (String.mk parts.headI, String.mk (jsJoin '=' parts.tail))

/-- `parseCookies` of `src/index.js` (lines 94-107): split the header on
the semicolon, build an entry from each fragment, and drop entries whose
name is empty (`if (name)`).  The JavaScript object is modelled as the
entry list in insertion order; `getCookie` reads it with the
last-assignment-wins semantics of object assignment. -/
def parseCookies (cookieHeader : String) : List (String × String) :=
  ((jsSplit ';' cookieHeader.data).map cookieEntry).filter
    (fun p => p.1 != "")

/-- `cookies[name]` on the jar built by `parseCookies`: the value of the
last entry with the given name, if any. -/
def getCookie (jar : List (String × String)) (name : String) :
    Option String :=
  (jar.reverse.find? (fun p => p.1 == name)).map (fun p => p.2)

/-- Name part of an entry split on the FIRST `=` only, following the
wording of the specification. -/
def firstEqName (s : List Char) : List Char :=
  s.takeWhile (fun x => x != '=')

/-- Value part of an entry split on the first `=` only: everything after
the first `=`, kept intact even when it contains further `=`; the empty
list when there is no `=`. -/
def firstEqValue (s : List Char) : List Char :=
  (s.dropWhile (fun x => x != '=')).tail

theorem jsSplit_ne_nil (c : Char) (s : List Char) : jsSplit c s ≠ [] := by
  cases s with
  | nil => simp [jsSplit]
  | cons a s =>
    simp only [jsSplit]
    split <;> simp

theorem jsSplit_headI (c : Char) (s : List Char) :
    (jsSplit c s).headI = s.takeWhile (fun x => x != c) := by
  induction s with
  | nil => rfl
  | cons a s ih =>
    simp only [jsSplit, List.takeWhile_cons]
    by_cases h : a = c
    · simp [h]
    · simpa [h] using ih

theorem jsJoin_jsSplit (c : Char) (s : List Char) :
    jsJoin c (jsSplit c s) = s := by
  induction s with
  | nil => rfl
  | cons a s ih =>
    simp only [jsSplit]
    by_cases h : a = c
    · simp only [if_pos h]
      cases hr : jsSplit c s with
      | nil => exact absurd hr (jsSplit_ne_nil c s)
      | cons x xs =>
        rw [hr] at ih
        rw [h]
        simpa [jsJoin] using ih
    · simp only [if_neg h]
      cases hr : jsSplit c s with
      | nil => exact absurd hr (jsSplit_ne_nil c s)
      | cons x xs =>
        rw [hr] at ih
        cases xs with
        | nil => simpa [jsJoin] using ih
        | cons y ys => simpa [jsJoin] using ih

theorem jsJoin_tail_jsSplit (c : Char) (s : List Char) :
    jsJoin c (jsSplit c s).tail =
      (s.dropWhile (fun x => x != c)).tail := by
  induction s with
  | nil => rfl
  | cons a s ih =>
    simp only [jsSplit, List.dropWhile_cons]
    by_cases h : a = c
    · simp [h, jsJoin_jsSplit]
    · simpa [h] using ih

/-- The source computation of a cookie entry (split on every `=`, take
the head, re-join the rest) agrees with the specification wording: split
on the first `=` only, so a value containing `=` is kept intact. -/
theorem cookieEntry_eq_firstEq (s : List Char) :
    cookieEntry s =
      (String.mk (firstEqName (jsTrim s)),
        String.mk (firstEqValue (jsTrim s))) := by
  simp [cookieEntry, firstEqName, firstEqValue, jsSplit_headI,
    jsJoin_tail_jsSplit]

/-- The inbound request, reduced to the parts `handleRequest` consumes
or forwards.  `hostname` embeds `new URL(request.url).hostname`;
`cookieHeader` and `cfConnectingIP` embed the two header reads; the
remaining fields stand for everything `fetch(request)` forwards
verbatim. -/
structure Request where
  hostname : String
  cookieHeader : Option String
  cfConnectingIP : Option String
  method : String
  otherHeaders : List (String × String)
  body : String
deriving DecidableEq

/-- An HTTP response as the Worker sees it: status, headers, body. -/
structure HttpResponse where
  status : Nat
  headers : List (String × String)
  body : String
deriving DecidableEq

/-- `new Response('Forbidden', \x7b status: 403 \x7d)`. -/
def forbidden : HttpResponse :=
  { status := 403, headers := [], body := "Forbidden" }

/-- `new Response('Forbidden)', \x7b status: 403 \x7d)` - the mismatch
response of line 80, stray parenthesis included. -/
def forbiddenMismatch : HttpResponse :=
  { status := 403, headers := [], body := "Forbidden)" }

/-- `new Response('Internal Server Error', \x7b status: 500 \x7d)`. -/
def internalServerError : HttpResponse :=
  { status := 500, headers := [], body := "Internal Server Error" }

/-- The parsed JSON body of the identity response; only the `ip` field
is read by the source (`identityData.ip`).  `none`: the field is absent
(JavaScript `undefined`). -/
structure IdentityJson where
  ip : Option String
deriving DecidableEq

/-- The response of the identity lookup `fetch`.  `jsonBody = none`
stands for a body on which `await identityResponse.json()` rejects
(absent or unparseable JSON); that rejection is caught by the `catch` of
line 83. -/
structure IdentityResponse where
  status : Nat
  jsonBody : Option IdentityJson
deriving DecidableEq

/-- `identityResponse.ok`: status in the inclusive range 200-299. -/
def respOk (r : IdentityResponse) : Bool :=
  decide (200 ≤ r.status) && decide (r.status ≤ 299)

/-- The outbound request the resolver builds (lines 44-54): method,
URL, and the one `Cookie` header it attaches. -/
structure OutboundRequest where
  method : String
  url : String
  cookie : String
deriving DecidableEq

/-- Lines 44-48: `GET https://{hostname}/cdn-cgi/access/get-identity`
with header `Cookie: CF_Authorization={token}`. -/
def identityRequest (hostname tok : String) : OutboundRequest :=
  { method := "GET"
    url := "https://" ++ hostname ++ "/cdn-cgi/access/get-identity"
    cookie := "CF_Authorization=" ++ tok }

/-- One outbound network call performed by the handler. -/
inductive OutboundCall where
  | identityLookup (r : OutboundRequest)
  | originForward (r : Request)
deriving DecidableEq

/-- `true` exactly on identity-lookup calls. -/
def OutboundCall.isIdentityLookup : OutboundCall → Bool
  | .identityLookup _ => true
  | .originForward _ => false

/-- How `handleRequest` terminates.  `responded r` is a concrete
response handed to the runtime; `uncaughtRejection` is a promise
rejection escaping `handleRequest` (see the header comment: the
un-awaited `return fetch(request)` of line 76). -/
inductive Outcome where
  | responded (r : HttpResponse)
  | uncaughtRejection
deriving DecidableEq

/-- The `try` block of lines 50-86, entered once the token and the
client address have been extracted: perform the identity lookup,
classify its result, compare addresses, and admit or deny.
The branches, in source order:
* identity `fetch` rejects (awaited, so caught): 500 (line 85);
* `!identityResponse.ok`: 403 `Forbidden` (line 60);
* `await identityResponse.json()` rejects (awaited, caught): 500;
* `!identityData.ip` (absent or empty): 403 `Forbidden` (line 70);
* addresses equal: `return fetch(request)` - the origin response, or an
  uncaught rejection if that un-awaited promise rejects;
* addresses unequal: 403 `Forbidden)` (line 80). -/
def resolveAndCompare (request : Request) (tok clientIP : String)
    (identityFetch : OutboundRequest → Option IdentityResponse)
    (originFetch : Request → Option HttpResponse) :
    Outcome × List OutboundCall :=
  let idReq := identityRequest request.hostname tok
  match identityFetch idReq with
  | none => (.responded internalServerError, [.identityLookup idReq])
  | some ir =>
    if respOk ir = false then
      (.responded forbidden, [.identityLookup idReq])
    else
      match ir.jsonBody with
      | none =>
        (.responded internalServerError, [.identityLookup idReq])
      | some identityData =>
        match identityData.ip with
        | none => (.responded forbidden, [.identityLookup idReq])
        | some identityIP =>
          if identityIP = "" then
            (.responded forbidden, [.identityLookup idReq])
          else if clientIP = identityIP then
            match originFetch request with
            | some r =>
              (.responded r,
                [.identityLookup idReq, .originForward request])
            | none =>
              (.uncaughtRejection,
                [.identityLookup idReq, .originForward request])
          else
            (.responded forbiddenMismatch, [.identityLookup idReq])

/-- `handleRequest` of `src/index.js` (lines 16-87).  The guard chain
of lines 21-41 in source order: missing or empty `Cookie` header, then
missing or empty `CF_Authorization` cookie, then missing or empty
`CF-Connecting-IP` header, each an immediate 403 with no outbound call;
otherwise the `try` block, `resolveAndCompare`. -/
def handleRequest (request : Request)
    (identityFetch : OutboundRequest → Option IdentityResponse)
    (originFetch : Request → Option HttpResponse) :
    Outcome × List OutboundCall :=
  match request.cookieHeader with
  | none => (.responded forbidden, [])
  | some cookieHeader =>
    if cookieHeader = "" then (.responded forbidden, [])
    else
      match getCookie (parseCookies cookieHeader) "CF_Authorization" with
      | none => (.responded forbidden, [])
      | some cfAuthCookie =>
        if cfAuthCookie = "" then (.responded forbidden, [])
        else
          match request.cfConnectingIP with
          | none => (.responded forbidden, [])
          | some clientIP =>
            if clientIP = "" then (.responded forbidden, [])
            else
              resolveAndCompare request cfAuthCookie clientIP
                identityFetch originFetch

/-- The Credential Extractor of the source, lines 21-34, as one value:
`none` when the `Cookie` header is absent or empty (falsy) or the jar
has no `CF_Authorization` entry; otherwise the entry value. -/
def extractToken (req : Request) : Option String :=
  match req.cookieHeader with
  | none => none
  | some ch =>
      if ch = "" then none
      else getCookie (parseCookies ch) "CF_Authorization"

/-- The guard chain of lines 21-41 passes: the `Cookie` header is
present and non-empty, it yields a non-empty `CF_Authorization` token,
and a non-empty `CF-Connecting-IP` header is present. -/
def extractionOk (req : Request) (ch tok cip : String) : Prop :=
  req.cookieHeader = some ch ∧ ch ≠ "" ∧
  getCookie (parseCookies ch) "CF_Authorization" = some tok ∧
  tok ≠ "" ∧
  req.cfConnectingIP = some cip ∧ cip ≠ ""

instance (req : Request) (ch tok cip : String) :
    Decidable (extractionOk req ch tok cip) := by
  unfold extractionOk
  infer_instance

theorem handleRequest_extractionOk (req : Request) (ch tok cip : String)
    (identityFetch : OutboundRequest → Option IdentityResponse)
    (originFetch : Request → Option HttpResponse)
    (h : extractionOk req ch tok cip) :
    handleRequest req identityFetch originFetch =
      resolveAndCompare req tok cip identityFetch originFetch := by
  obtain ⟨h1, h2, h3, h4, h5, h6⟩ := h
  simp [handleRequest, h1, h2, h3, h4, h5, h6]

/-- A concrete inbound request used by the witnesses: the cookie header
of the specification example, carrying token `tok123`, together with a
client address, a method, an extra header and a body. -/
def sampleRequest : Request :=
  { hostname := "example.com"
    cookieHeader := some "a=1; CF_Authorization=tok123; b=x=y"
    cfConnectingIP := some "1.2.3.4"
    method := "POST"
    otherHeaders := [("X-Test", "1")]
    body := "payload" }

/-- An identity collaborator answering 200 with the given bound
address. -/
def sampleIdentity (ip : String) :
    OutboundRequest → Option IdentityResponse :=
  fun _ => some { status := 200, jsonBody := some { ip := some ip } }

/-- A concrete origin response used by the witnesses. -/
def sampleOrigin : HttpResponse :=
  { status := 201
    headers := [("Content-Type", "text/html")]
    body := "origin body" }

/-- C5: `parseCookies` splits the raw header on the semicolon, trims
each entry, and splits on the first `=` only, so values containing `=`
are kept intact (the general refinement `cookieEntry_eq_firstEq`);
entries with an empty name are discarded; the last occurrence of a
duplicate name wins; an entry with no `=` maps its name to the empty
value.  The specification example header yields token `tok123` and maps
`b` to `x=y`. -/
theorem parseCookies_spec :
    (∀ s : List Char,
      cookieEntry s =
        (String.mk (firstEqName (jsTrim s)),
          String.mk (firstEqValue (jsTrim s)))) ∧
    getCookie (parseCookies "a=1; CF_Authorization=tok123; b=x=y")
      "CF_Authorization" = some "tok123" ∧
    getCookie (parseCookies "a=1; CF_Authorization=tok123; b=x=y")
      "b" = some "x=y" ∧
    getCookie (parseCookies "a=1; CF_Authorization=tok123; b=x=y")
      "a" = some "1" ∧
    getCookie (parseCookies "d=1; d=2") "d" = some "2" ∧
    getCookie (parseCookies "lone") "lone" = some "" ∧
    getCookie (parseCookies "=v; a=1") "" = none ∧
    getCookie (parseCookies "=v; a=1") "a" = some "1" :=
  ⟨cookieEntry_eq_firstEq, by decide, by decide, by decide, by decide,
    by decide, by decide, by decide⟩

/-- C6: when the token cannot be extracted (missing or empty `Cookie`
header, or no `CF_Authorization` entry) or the `CF-Connecting-IP`
header is missing, the handler answers 403 `Forbidden` and performs no
outbound call, in particular no identity lookup. -/
theorem missing_inputs_forbidden (req : Request)
    (identityFetch : OutboundRequest → Option IdentityResponse)
    (originFetch : Request → Option HttpResponse)
    (h : extractToken req = none ∨ req.cfConnectingIP = none) :
    handleRequest req identityFetch originFetch =
      (.responded forbidden, []) ∧
    forbidden.status = 403 ∧ forbidden.body = "Forbidden" := by
  refine ⟨?_, rfl, rfl⟩
  rcases h with h | h
  · cases hch : req.cookieHeader with
    | none => simp [handleRequest, hch]
    | some ch =>
      by_cases he : ch = ""
      · simp [handleRequest, hch, he]
      · rw [extractToken, hch] at h
        simp only [if_neg he] at h
        simp [handleRequest, hch, he, h]
  · cases hch : req.cookieHeader with
    | none => simp [handleRequest, hch]
    | some ch =>
      by_cases he : ch = ""
      · simp [handleRequest, hch, he]
      · cases htok : getCookie (parseCookies ch) "CF_Authorization" with
        | none => simp [handleRequest, hch, he, htok]
        | some tok =>
          by_cases ht : tok = "" <;>
            simp [handleRequest, hch, he, htok, ht, h]

/-- C6 witness: the three denial conditions at concrete requests - no
`Cookie` header, a `Cookie` header without `CF_Authorization`, and a
missing `CF-Connecting-IP` header. -/
theorem missing_inputs_forbidden_witness :
    ((extractToken { sampleRequest with cookieHeader := none } = none ∨
        ({ sampleRequest with cookieHeader := none } : Request).cfConnectingIP = none) ∧
      handleRequest { sampleRequest with cookieHeader := none }
        (sampleIdentity "1.2.3.4") (fun _ => some sampleOrigin) =
        (.responded forbidden, []) ∧
      forbidden.status = 403 ∧ forbidden.body = "Forbidden") ∧
    ((extractToken { sampleRequest with cookieHeader := some "a=1; b=2" } = none ∨
        ({ sampleRequest with cookieHeader := some "a=1; b=2" } : Request).cfConnectingIP = none) ∧
      handleRequest { sampleRequest with cookieHeader := some "a=1; b=2" }
        (sampleIdentity "1.2.3.4") (fun _ => some sampleOrigin) =
        (.responded forbidden, []) ∧
      forbidden.status = 403 ∧ forbidden.body = "Forbidden") ∧
    ((extractToken { sampleRequest with cfConnectingIP := none } = none ∨
        ({ sampleRequest with cfConnectingIP := none } : Request).cfConnectingIP = none) ∧
      handleRequest { sampleRequest with cfConnectingIP := none }
        (sampleIdentity "1.2.3.4") (fun _ => some sampleOrigin) =
        (.responded forbidden, []) ∧
      forbidden.status = 403 ∧ forbidden.body = "Forbidden") :=
  ⟨⟨Or.inl (by decide),
      missing_inputs_forbidden _ _ _ (Or.inl (by decide))⟩,
    ⟨Or.inl (by decide),
      missing_inputs_forbidden _ _ _ (Or.inl (by decide))⟩,
    ⟨Or.inr (by decide),
      missing_inputs_forbidden _ _ _ (Or.inr (by decide))⟩⟩

/-- C10: a `CF_Authorization` cookie whose value is empty (explicit
`CF_Authorization=`, or a bare `CF_Authorization` entry, which parses
to the empty value) is treated like a missing credential: 403
`Forbidden`, no outbound call, and the same result as the request with
no `Cookie` header at all. -/
theorem empty_token_forbidden (req : Request) (ch : String)
    (identityFetch : OutboundRequest → Option IdentityResponse)
    (originFetch : Request → Option HttpResponse)
    (hch : req.cookieHeader = some ch) (hne : ch ≠ "")
    (htok : getCookie (parseCookies ch) "CF_Authorization" = some "") :
    handleRequest req identityFetch originFetch =
      (.responded forbidden, []) ∧
    handleRequest req identityFetch originFetch =
      handleRequest { req with cookieHeader := none }
        identityFetch originFetch := by
  constructor
  · simp [handleRequest, hch, hne, htok]
  · simp [handleRequest, hch, hne, htok]

/-- C10 witness: the two concrete empty-token cookie headers. -/
theorem empty_token_forbidden_witness :
    (({ sampleRequest with cookieHeader := some "CF_Authorization=" } : Request).cookieHeader =
        some "CF_Authorization=" ∧
      getCookie (parseCookies "CF_Authorization=") "CF_Authorization" = some "" ∧
      handleRequest { sampleRequest with cookieHeader := some "CF_Authorization=" }
        (sampleIdentity "1.2.3.4") (fun _ => some sampleOrigin) =
        (.responded forbidden, [])) ∧
    (({ sampleRequest with cookieHeader := some "CF_Authorization" } : Request).cookieHeader =
        some "CF_Authorization" ∧
      getCookie (parseCookies "CF_Authorization") "CF_Authorization" = some "" ∧
      handleRequest { sampleRequest with cookieHeader := some "CF_Authorization" }
        (sampleIdentity "1.2.3.4") (fun _ => some sampleOrigin) =
        (.responded forbidden, [])) :=
  ⟨⟨by decide, by decide,
      (empty_token_forbidden _ "CF_Authorization=" _ _ (by decide)
        (by decide) (by decide)).1⟩,
    ⟨by decide, by decide,
      (empty_token_forbidden _ "CF_Authorization" _ _ (by decide)
        (by decide) (by decide)).1⟩⟩

/-- C7: a transport-level failure of the identity lookup itself (the
awaited `fetch` rejects) is caught and answered with 500
`Internal Server Error`, not with a 403. -/
theorem transport_failure_500 (req : Request) (ch tok cip : String)
    (identityFetch : OutboundRequest → Option IdentityResponse)
    (originFetch : Request → Option HttpResponse)
    (h : extractionOk req ch tok cip)
    (hidf : identityFetch (identityRequest req.hostname tok) = none) :
    handleRequest req identityFetch originFetch =
      (.responded internalServerError,
        [.identityLookup (identityRequest req.hostname tok)]) ∧
    internalServerError.status = 500 ∧
    internalServerError.body = "Internal Server Error" ∧
    internalServerError.status ≠ 403 := by
  refine ⟨?_, rfl, rfl, by decide⟩
  rw [handleRequest_extractionOk req ch tok cip _ _ h]
  simp [resolveAndCompare, hidf]

/-- C7 witness: a concrete request whose identity lookup rejects. -/
theorem transport_failure_500_witness :
    extractionOk sampleRequest "a=1; CF_Authorization=tok123; b=x=y"
      "tok123" "1.2.3.4" ∧
    handleRequest sampleRequest (fun _ => none)
      (fun _ => some sampleOrigin) =
      (.responded internalServerError,
        [.identityLookup (identityRequest "example.com" "tok123")]) :=
  ⟨by decide,
    (transport_failure_500 sampleRequest
      "a=1; CF_Authorization=tok123; b=x=y" "tok123" "1.2.3.4" _ _
      (by decide) rfl).1⟩

/-- C3: when extraction passes, the lookup succeeds (2xx) with a
non-empty bound address different from the observed client address, the
answer is 403 with the literal body `Forbidden)` - trailing parenthesis
included - which differs from the plain `Forbidden` body of the other
denial conditions. -/
theorem ip_mismatch_body (req : Request) (ch tok cip iip : String)
    (ir : IdentityResponse)
    (identityFetch : OutboundRequest → Option IdentityResponse)
    (originFetch : Request → Option HttpResponse)
    (h : extractionOk req ch tok cip)
    (hidf : identityFetch (identityRequest req.hostname tok) = some ir)
    (hok : respOk ir = true)
    (hb : ir.jsonBody = some { ip := some iip })
    (hiip : iip ≠ "") (hne : cip ≠ iip) :
    handleRequest req identityFetch originFetch =
      (.responded forbiddenMismatch,
        [.identityLookup (identityRequest req.hostname tok)]) ∧
    forbiddenMismatch.status = 403 ∧
    forbiddenMismatch.body = "Forbidden)" ∧
    forbidden.body = "Forbidden" ∧
    forbiddenMismatch.body ≠ forbidden.body := by
  refine ⟨?_, rfl, rfl, rfl, by decide⟩
  rw [handleRequest_extractionOk req ch tok cip _ _ h]
  simp [resolveAndCompare, hidf, hok, hb, hiip, hne]

/-- C3 witness: token `tok123` bound to `5.6.7.8`, observed address
`1.2.3.4`. -/
theorem ip_mismatch_body_witness :
    extractionOk sampleRequest "a=1; CF_Authorization=tok123; b=x=y"
      "tok123" "1.2.3.4" ∧
    handleRequest sampleRequest (sampleIdentity "5.6.7.8")
      (fun _ => some sampleOrigin) =
      (.responded forbiddenMismatch,
        [.identityLookup (identityRequest "example.com" "tok123")]) :=
  ⟨by decide,
    (ip_mismatch_body sampleRequest
      "a=1; CF_Authorization=tok123; b=x=y" "tok123" "1.2.3.4" "5.6.7.8"
      _ _ _ (by decide) rfl (by decide) rfl (by decide) (by decide)).1⟩

/-- C4: once an identity with a non-empty bound address is resolved,
the verdict is decided by plain string equality of the two addresses -
byte-for-byte and case-sensitive, with no normalization: the origin is
reached exactly when the strings are equal, and the mismatch denial is
produced exactly when they differ. -/
theorem address_comparator_exact_equality (req : Request)
    (ch tok cip iip : String) (ir : IdentityResponse)
    (oresp : HttpResponse)
    (identityFetch : OutboundRequest → Option IdentityResponse)
    (originFetch : Request → Option HttpResponse)
    (h : extractionOk req ch tok cip)
    (hidf : identityFetch (identityRequest req.hostname tok) = some ir)
    (hok : respOk ir = true)
    (hb : ir.jsonBody = some { ip := some iip })
    (hiip : iip ≠ "") (hof : originFetch req = some oresp) :
    (handleRequest req identityFetch originFetch =
        (.responded oresp,
          [.identityLookup (identityRequest req.hostname tok),
            .originForward req]) ↔ cip = iip) ∧
    (handleRequest req identityFetch originFetch =
        (.responded forbiddenMismatch,
          [.identityLookup (identityRequest req.hostname tok)]) ↔
      cip ≠ iip) := by
  rw [handleRequest_extractionOk req ch tok cip _ _ h]
  by_cases heq : cip = iip <;>
    simp [resolveAndCompare, hidf, hok, hb, hiip, heq, hof]

/-- C4 witness: equal strings admit; the equivalent but textually
different IPv6 spellings `::1` and `0:0:0:0:0:0:0:1` deny, showing the
absence of address canonicalization. -/
theorem address_comparator_exact_equality_witness :
    extractionOk
      { sampleRequest with cfConnectingIP := some "::1" }
      "a=1; CF_Authorization=tok123; b=x=y" "tok123" "::1" ∧
    handleRequest { sampleRequest with cfConnectingIP := some "::1" }
      (sampleIdentity "0:0:0:0:0:0:0:1") (fun _ => some sampleOrigin) =
      (.responded forbiddenMismatch,
        [.identityLookup (identityRequest "example.com" "tok123")]) :=
  ⟨by decide,
    (address_comparator_exact_equality
      { sampleRequest with cfConnectingIP := some "::1" }
      "a=1; CF_Authorization=tok123; b=x=y" "tok123" "::1"
      "0:0:0:0:0:0:0:1" _ sampleOrigin _ _ (by decide) rfl (by decide)
      rfl (by decide) rfl).2.mpr (by decide)⟩

/-- C9: on Admit (observed address equal to the bound address), the
inbound request itself - method, headers and body untouched - is the
argument of the origin forward, and the origin response is returned to
the caller verbatim: status, headers and body unmodified. -/
theorem admit_forwards_verbatim (req : Request) (ch tok cip : String)
    (ir : IdentityResponse) (oresp : HttpResponse)
    (identityFetch : OutboundRequest → Option IdentityResponse)
    (originFetch : Request → Option HttpResponse)
    (h : extractionOk req ch tok cip)
    (hidf : identityFetch (identityRequest req.hostname tok) = some ir)
    (hok : respOk ir = true)
    (hb : ir.jsonBody = some { ip := some cip })
    (hof : originFetch req = some oresp) :
    handleRequest req identityFetch originFetch =
      (.responded oresp,
        [.identityLookup (identityRequest req.hostname tok),
          .originForward req]) := by
  have h6 : cip ≠ "" := h.2.2.2.2.2
  rw [handleRequest_extractionOk req ch tok cip _ _ h]
  simp [resolveAndCompare, hidf, hok, hb, h6, hof]

/-- C9 witness: a stubbed origin response (status 201, a header, a
body) comes back exactly, and the forwarded request is the inbound one
with its method, headers and body. -/
theorem admit_forwards_verbatim_witness :
    extractionOk sampleRequest "a=1; CF_Authorization=tok123; b=x=y"
      "tok123" "1.2.3.4" ∧
    handleRequest sampleRequest (sampleIdentity "1.2.3.4")
      (fun _ => some sampleOrigin) =
      (.responded sampleOrigin,
        [.identityLookup (identityRequest "example.com" "tok123"),
          .originForward sampleRequest]) :=
  ⟨by decide,
    admit_forwards_verbatim sampleRequest
      "a=1; CF_Authorization=tok123; b=x=y" "tok123" "1.2.3.4"
      _ sampleOrigin _ _ (by decide) rfl (by decide) rfl rfl⟩

/-- C8: once extraction passes, whatever the collaborators do, the call
trace contains exactly one identity lookup - no retries - and it is the
GET of `https://{hostname}/cdn-cgi/access/get-identity` for the inbound
hostname, carrying the `Cookie` header `CF_Authorization={token}`. -/
theorem single_identity_lookup (req : Request) (ch tok cip : String)
    (identityFetch : OutboundRequest → Option IdentityResponse)
    (originFetch : Request → Option HttpResponse)
    (h : extractionOk req ch tok cip) :
    (identityRequest req.hostname tok).method = "GET" ∧
    (identityRequest req.hostname tok).url =
      "https://" ++ req.hostname ++ "/cdn-cgi/access/get-identity" ∧
    (identityRequest req.hostname tok).cookie =
      "CF_Authorization=" ++ tok ∧
    (handleRequest req identityFetch originFetch).2.filter
        OutboundCall.isIdentityLookup =
      [.identityLookup (identityRequest req.hostname tok)] := by
  refine ⟨rfl, rfl, rfl, ?_⟩
  rw [handleRequest_extractionOk req ch tok cip _ _ h]
  cases hidf : identityFetch (identityRequest req.hostname tok) with
  | none =>
    simp [resolveAndCompare, hidf, OutboundCall.isIdentityLookup]
  | some ir =>
    by_cases hok : respOk ir = false
    · simp [resolveAndCompare, hidf, hok, OutboundCall.isIdentityLookup]
    · cases hb : ir.jsonBody with
      | none =>
        simp [resolveAndCompare, hidf, hok, hb,
          OutboundCall.isIdentityLookup]
      | some d =>
        cases hip : d.ip with
        | none =>
          simp [resolveAndCompare, hidf, hok, hb, hip,
            OutboundCall.isIdentityLookup]
        | some iip =>
          by_cases hiip : iip = ""
          · simp [resolveAndCompare, hidf, hok, hb, hip, hiip,
              OutboundCall.isIdentityLookup]
          · by_cases heq : cip = iip
            · cases hof : originFetch req <;>
                simp [resolveAndCompare, hidf, hok, hb, hip, hiip, heq,
                  hof, OutboundCall.isIdentityLookup]
            · simp [resolveAndCompare, hidf, hok, hb, hip, hiip, heq,
                OutboundCall.isIdentityLookup]

/-- C8 witness: the concrete request issues exactly the expected
lookup. -/
theorem single_identity_lookup_witness :
    extractionOk sampleRequest "a=1; CF_Authorization=tok123; b=x=y"
      "tok123" "1.2.3.4" ∧
    (handleRequest sampleRequest (sampleIdentity "1.2.3.4")
        (fun _ => some sampleOrigin)).2.filter
        OutboundCall.isIdentityLookup =
      [.identityLookup (identityRequest "example.com" "tok123")] :=
  ⟨by decide,
    (single_identity_lookup sampleRequest
      "a=1; CF_Authorization=tok123; b=x=y" "tok123" "1.2.3.4" _ _
      (by decide)).2.2.2⟩

/-- C1 counterexample: a lookup answering 200 with an unparseable (or
absent) body makes the awaited `identityResponse.json()` reject; the
`catch` of line 83 turns that into the 500 response, not into a 403 -
refuting the claim that every resolver failure condition, an
unparseable or missing body included, yields a 403. -/
theorem resolver_unparseable_body_counterexample :
    handleRequest sampleRequest
      (fun _ => some { status := 200, jsonBody := none })
      (fun _ => some sampleOrigin) =
      (.responded internalServerError,
        [.identityLookup (identityRequest "example.com" "tok123")]) ∧
    internalServerError.status = 500 ∧
    internalServerError.status ≠ 403 := by
  refine ⟨by decide, rfl, by decide⟩

/-- C1 (amended): for a request past extraction whose lookup call
resolves, a non-2xx response yields 403 `Forbidden`; a 2xx response
whose body parses but lacks a usable `ip` (absent or empty field, the
`200` + body `\x7b\x7d` case included) yields 403 `Forbidden`; but a
2xx response whose body does not parse makes `json()` reject, which the
transport `catch` answers with 500, not 403.  No case crashes. -/
theorem resolver_failure_responses (req : Request)
    (ch tok cip : String) (ir : IdentityResponse)
    (identityFetch : OutboundRequest → Option IdentityResponse)
    (originFetch : Request → Option HttpResponse)
    (h : extractionOk req ch tok cip)
    (hidf : identityFetch (identityRequest req.hostname tok) = some ir) :
    (respOk ir = false →
      handleRequest req identityFetch originFetch =
        (.responded forbidden,
          [.identityLookup (identityRequest req.hostname tok)])) ∧
    (∀ identityData : IdentityJson, respOk ir = true →
      ir.jsonBody = some identityData →
      (identityData.ip = none ∨ identityData.ip = some "") →
      handleRequest req identityFetch originFetch =
        (.responded forbidden,
          [.identityLookup (identityRequest req.hostname tok)])) ∧
    (respOk ir = true → ir.jsonBody = none →
      handleRequest req identityFetch originFetch =
        (.responded internalServerError,
          [.identityLookup (identityRequest req.hostname tok)])) := by
  have hmain := handleRequest_extractionOk req ch tok cip
    identityFetch originFetch h
  refine ⟨?_, ?_, ?_⟩
  · intro hok
    rw [hmain]
    simp [resolveAndCompare, hidf, hok]
  · intro d hok hb hip
    rw [hmain]
    rcases hip with hip | hip <;>
      simp [resolveAndCompare, hidf, hok, hb, hip]
  · intro hok hb
    rw [hmain]
    simp [resolveAndCompare, hidf, hok, hb]

/-- C1 witness: a 401 from the lookup service yields the 403
`Forbidden` response, and so does a 200 whose parsed body `\x7b\x7d`
has no `ip` field. -/
theorem resolver_failure_responses_witness :
    extractionOk sampleRequest "a=1; CF_Authorization=tok123; b=x=y"
      "tok123" "1.2.3.4" ∧
    handleRequest sampleRequest
      (fun _ => some { status := 401, jsonBody := none })
      (fun _ => some sampleOrigin) =
      (.responded forbidden,
        [.identityLookup (identityRequest "example.com" "tok123")]) ∧
    handleRequest sampleRequest
      (fun _ => some { status := 200, jsonBody := some { ip := none } })
      (fun _ => some sampleOrigin) =
      (.responded forbidden,
        [.identityLookup (identityRequest "example.com" "tok123")]) :=
  ⟨by decide,
    (resolver_failure_responses sampleRequest
      "a=1; CF_Authorization=tok123; b=x=y" "tok123" "1.2.3.4"
      { status := 401, jsonBody := none } _ _ (by decide) rfl).1
      (by decide),
    ((resolver_failure_responses sampleRequest
      "a=1; CF_Authorization=tok123; b=x=y" "tok123" "1.2.3.4"
      { status := 200, jsonBody := some { ip := none } } _ _
      (by decide) rfl).2.1 { ip := none } (by decide) rfl
      (Or.inl rfl))⟩

/-- C2 counterexample: on the admit path the source returns
`fetch(request)` without `await` (line 76); when that origin call
rejects, the rejection is adopted after the `try` block has been
exited, bypasses the `catch`, and escapes `handleRequest` - a path that
leaves the caller with an uncaught fault instead of a response,
refuting the claim for arbitrary collaborator behaviour. -/
theorem origin_rejection_uncaught_counterexample :
    (handleRequest sampleRequest (sampleIdentity "1.2.3.4")
        (fun _ => none)).1 = Outcome.uncaughtRejection := by
  decide

/-- C2 (amended): for every inbound request and every behaviour of the
identity-lookup collaborator, provided the origin forward - when it is
reached - resolves rather than rejects, `handleRequest` terminates with
exactly one concrete response; identity-side faults are all handled
locally.  The only uncovered path is the un-awaited origin forward of
the counterexample. -/
theorem no_uncaught_fault_when_origin_resolves (req : Request)
    (identityFetch : OutboundRequest → Option IdentityResponse)
    (originFetch : Request → Option HttpResponse)
    (h : originFetch req ≠ none) :
    (handleRequest req identityFetch originFetch).1 ≠
      Outcome.uncaughtRejection := by
  obtain ⟨r, hr⟩ := Option.ne_none_iff_exists'.mp h
  cases hch : req.cookieHeader with
  | none => simp [handleRequest, hch]
  | some ch =>
    by_cases he : ch = ""
    · simp [handleRequest, hch, he]
    · cases htok : getCookie (parseCookies ch) "CF_Authorization" with
      | none => simp [handleRequest, hch, he, htok]
      | some tok =>
        by_cases ht : tok = ""
        · simp [handleRequest, hch, he, htok, ht]
        · cases hcip : req.cfConnectingIP with
          | none => simp [handleRequest, hch, he, htok, ht, hcip]
          | some cip =>
            by_cases hc : cip = ""
            · simp [handleRequest, hch, he, htok, ht, hcip, hc]
            · cases hidf :
                identityFetch (identityRequest req.hostname tok) with
              | none =>
                simp [handleRequest, resolveAndCompare, hch, he, htok,
                  ht, hcip, hc, hidf]
              | some ir =>
                by_cases hok : respOk ir = false
                · simp [handleRequest, resolveAndCompare, hch, he,
                    htok, ht, hcip, hc, hidf, hok]
                · cases hb : ir.jsonBody with
                  | none =>
                    simp [handleRequest, resolveAndCompare, hch, he,
                      htok, ht, hcip, hc, hidf, hok, hb]
                  | some d =>
                    cases hip : d.ip with
                    | none =>
                      simp [handleRequest, resolveAndCompare, hch, he,
                        htok, ht, hcip, hc, hidf, hok, hb, hip]
                    | some iip =>
                      by_cases hiip : iip = ""
                      · simp [handleRequest, resolveAndCompare, hch,
                          he, htok, ht, hcip, hc, hidf, hok, hb, hip,
                          hiip]
                      · by_cases heq : cip = iip <;>
                          simp [handleRequest, resolveAndCompare, hch,
                            he, htok, ht, hcip, hc, hidf, hok, hb, hip,
                            hiip, heq, hr]

/-- C2 witness: with a resolving origin stub, the concrete request is
answered and no fault escapes. -/
theorem no_uncaught_fault_when_origin_resolves_witness :
    ((fun _ => some sampleOrigin) : Request → Option HttpResponse)
        sampleRequest ≠ none ∧
    (handleRequest sampleRequest (sampleIdentity "1.2.3.4")
        (fun _ => some sampleOrigin)).1 ≠ Outcome.uncaughtRejection :=
  ⟨by decide,
    no_uncaught_fault_when_origin_resolves sampleRequest
      (sampleIdentity "1.2.3.4") (fun _ => some sampleOrigin)
      (by decide)⟩

end CfAuthIp
